import Mathlib

/-!
Verification of the SafePlate recipe-generation core (src/recipes/).

The Python modules are shallowly embedded:
* `PyVal` models Python values (None, bool, int, str, list, dict with
  string keys); dicts are association lists looked up by first match,
  matching the unique-key dictionaries of Python.
* `parse_agent_output` embeds `recipes/views.py::parse_agent_output`,
  parameterized by the `json.loads` boundary
  (`jloads : String → Except String PyVal`); `jsonLoads` is a concrete
  executable instance used in witnesses.
* `call_recipe_agent` embeds `recipes/views.py::call_recipe_agent` with
  the network transport as an explicit outcome value.
* `generate_safe_recipe_post` embeds the POST path of
  `recipes/views.py::generate_safe_recipe`.
* `_simulate_chef_agent` and `_simulate_inspector_agent` are referenced
  by `recipes/tests.py` but absent from `recipes/views.py`; they are
  modelled from the specification (see their doc comments).
-/

/-- Model of a Python value as produced by `json.loads` / passed around
the views module. -/
inductive PyVal where
  | none
  | bool (b : Bool)
  | int (n : Int)
  | str (s : String)
  | list (xs : List PyVal)
  | dict (kvs : List (String × PyVal))

/-- Dictionary lookup (Python `d[k]` / `k in d` support): first matching
key, `Option.none` when absent. -/
def dget : List (String × PyVal) → String → Option PyVal
  | [], _ => Option.none
  | (k, v) :: rest, key => if k = key then some v else dget rest key

/-- Python `d.get(k)`: `None` when the key is absent. -/
def od (kvs : List (String × PyVal)) (k : String) : PyVal :=
  (dget kvs k).getD PyVal.none

/-- Python truthiness of a value. -/
def pyTruthy : PyVal → Bool
  | .none => false
  | .bool b => b
  | .int n => n != 0
  | .str s => s != ""
  | .list xs => !xs.isEmpty
  | .dict kvs => !kvs.isEmpty

/-- Python `a or b`. -/
def pyOr (a b : PyVal) : PyVal := if pyTruthy a then a else b

/-- Python `type(v)` rendered as in a CPython f-string. -/
def pyTypeName : PyVal → String
  | .none => "<class \x27NoneType\x27>"
  | .bool _ => "<class \x27bool\x27>"
  | .int _ => "<class \x27int\x27>"
  | .str _ => "<class \x27str\x27>"
  | .list _ => "<class \x27list\x27>"
  | .dict _ => "<class \x27dict\x27>"

/-- Comma-space join, the Python join on a comma-space separator. -/
def joinCommaSpace : List String → String
  | [] => ""
  | [x] => x
  | x :: y :: rest => x ++ ", " ++ joinCommaSpace (y :: rest)

mutual

/-- Model of Python `str(v)` (module-level stringification used for a
non-string `safety_notes`); containers follow `repr` conventions. -/
def pyStr : PyVal → String
  | .none => "None"
  | .bool true => "True"
  | .bool false => "False"
  | .int n => toString n
  | .str s => s
  | .list xs => "[" ++ pyStrList xs ++ "]"
  | .dict kvs => "\x7b" ++ pyStrDict kvs ++ "\x7d"

/-- `repr` of a value occurring inside a container. -/
def pyStrInner : PyVal → String
  | .str s => "\x27" ++ s ++ "\x27"
  | .none => "None"
  | .bool true => "True"
  | .bool false => "False"
  | .int n => toString n
  | .list xs => "[" ++ pyStrList xs ++ "]"
  | .dict kvs => "\x7b" ++ pyStrDict kvs ++ "\x7d"

/-- `repr` of list elements, comma-joined. -/
def pyStrList : List PyVal → String
  | [] => ""
  | [x] => pyStrInner x
  | x :: y :: rest => pyStrInner x ++ ", " ++ pyStrList (y :: rest)

/-- `repr` of dict entries, comma-joined. -/
def pyStrDict : List (String × PyVal) → String
  | [] => ""
  | [(k, v)] => "\x27" ++ k ++ "\x27: " ++ pyStrInner v
  | (k, v) :: e :: rest => "\x27" ++ k ++ "\x27: " ++ pyStrInner v ++ ", " ++ pyStrDict (e :: rest)

end

/-- The whitespace characters stripped by Python `str.strip()`. -/
def isPySpace (c : Char) : Bool :=
  c == ' ' || c == '\t' || c == '\n' || c == '\r' || c == '\x0b' || c == '\x0c'

/-- Trim `isPySpace` characters from both ends of a character list. -/
def trimChars (l : List Char) : List Char :=
  ((l.dropWhile isPySpace).reverse.dropWhile isPySpace).reverse

/-- Python `s.strip()`. -/
def pyStrip (s : String) : String := String.mk (trimChars s.toList)

/-- Python `s[:n]`. -/
def pyTake (s : String) (n : Nat) : String := String.mk (s.toList.take n)

/-- Python `s.lower()` (character-wise lowercase). -/
def pyLowerStr (s : String) : String := String.mk (s.toList.map Char.toLower)

/-- `startsWithChars n h`: `n` is a leading segment of `h`. -/
def startsWithChars : List Char → List Char → Bool
  | [], _ => true
  | _ :: _, [] => false
  | a :: as, b :: bs => a == b && startsWithChars as bs

/-- `containsSeq n h`: `n` occurs contiguously inside `h`. -/
def containsSeq (n : List Char) : List Char → Bool
  | [] => n.isEmpty
  | c :: rest => startsWithChars n (c :: rest) || containsSeq n rest

/-- Python `small in big` on strings. -/
def strContains (big small : String) : Bool := containsSeq small.toList big.toList

/-- Python `s.find(c)` as an index option. -/
def charFind (l : List Char) (c : Char) : Option Nat := l.findIdx? (· == c)

/-- Python `s.rfind(c)` as an index option. -/
def charRFind (l : List Char) (c : Char) : Option Nat :=
  match (l.reverse).findIdx? (· == c) with
  | some i => some (l.length - 1 - i)
  | Option.none => Option.none

/-- The failure-shaped record returned by every early-return branch of
`parse_agent_output`: default name/text, `is_safe=False`, given notes. -/
def failRec (notes : String) : PyVal :=
  .dict [("recipe_name", .str "Untitled Recipe"),
         ("recipe_text", .str "No recipe text provided."),
         ("is_safe", .bool false),
         ("safety_notes", .str notes)]

/-- `views.py` lines 188-197: the list of expected keys absent from the
structured payload, `title` aliasing `recipe_name` and `text` aliasing
`recipe_text`. -/
def missingKeys (out : List (String × PyVal)) : List String :=
  (if (dget out "recipe_name").isNone ∧ (dget out "title").isNone
    then ["recipe_name"] else [])
  ++ (if (dget out "recipe_text").isNone ∧ (dget out "text").isNone
    then ["recipe_text"] else [])
  ++ (if (dget out "is_safe").isNone then ["is_safe"] else [])
  ++ (if (dget out "safety_notes").isNone then ["safety_notes"] else [])

/-- `views.py` lines 167-173: extraction of the `is_safe` field. -/
def extractIsSafe (out : List (String × PyVal)) : Bool :=
  match od out "is_safe" with
  | .bool b => b
  | .str s => ["true", "yes", "1"].contains (pyLowerStr s)
  | _ => false

/-- `views.py` lines 176-186: extraction of the `safety_notes` field
(before the missing-key warning is appended). -/
def extractNotes (out : List (String × PyVal)) : String :=
  match od out "safety_notes" with
  | .str s => s
  | .none =>
    if extractIsSafe out then
      "No safety notes provided. Please verify ingredients for allergen safety."
    else
      "Recipe marked as unsafe but no safety notes provided."
  | v => pyStr v

/-- The missing-key warning suffix appended to `safety_notes`. -/
def warnSuffix (missing : List String) : String :=
  " [WARNING: Response missing keys: " ++ joinCommaSpace missing ++ "]"

/-- `views.py` lines 161-218: the common tail of `parse_agent_output`
applied to the selected payload (`output` in the source). -/
def parse_tail (output : PyVal) : PyVal :=
  match output with
  | .dict out =>
    let recipe_name := pyOr (od out "recipe_name") (pyOr (od out "title") (.str "Untitled Recipe"))
    let recipe_text := pyOr (od out "recipe_text") (pyOr (od out "text") (.str "No recipe text provided."))
    let is_safe := extractIsSafe out
    let notes0 := extractNotes out
    let missing := missingKeys out
    let safety_notes := if missing.isEmpty then notes0 else notes0 ++ warnSuffix missing
    .dict [("recipe_name", recipe_name),
           ("recipe_text", recipe_text),
           ("is_safe", .bool is_safe),
           ("safety_notes", .str safety_notes)]
  | _ => failRec ("Parsed output is not a dictionary. Type: " ++ pyTypeName output)

/-- `views.py` lines 101-218, `parse_agent_output`, parameterized by the
`json.loads` boundary: `jloads s` is `.ok v` when `json.loads(s)`
returns `v` and `.error e` when it raises `JSONDecodeError(e)`. -/
def parse_agent_output (jloads : String → Except String PyVal) (agent_result : PyVal) : PyVal :=
  match agent_result with
  | .dict kvs =>
    match dget kvs "result" with
    | some result_data =>
      match result_data with
      | .str s =>
        match jloads s with
        | .error e => failRec ("Failed to parse JSON from result string: " ++ e)
        | .ok output => parse_tail output
      | _ => parse_tail result_data
    | Option.none =>
      match (dget kvs "output").getD (.dict kvs) with
      | .str o =>
        let s := pyStrip o
        match charFind s.toList '{', charRFind s.toList '}' with
        | some first, some last =>
          if first < last then
            match jloads (String.mk ((s.toList.drop first).take (last + 1 - first))) with
            | .ok output => parse_tail output
            | .error e =>
              failRec ("Failed to parse JSON from agent string. Error: " ++ e
                ++ ". Content preview: " ++ pyTake s 200)
          else
            failRec ("No JSON object found in agent output. Content preview: " ++ pyTake s 200)
        | _, _ =>
          failRec ("No JSON object found in agent output. Content preview: " ++ pyTake s 200)
      | output => parse_tail output
  | _ => failRec ("Invalid agent output type: " ++ pyTypeName agent_result)

/-- Field access on a parse result (`parsed_result["recipe_name"]` etc.);
`PyVal.none` when absent, which never happens on `parse_agent_output`
results. -/
def getField (r : PyVal) (k : String) : PyVal :=
  match r with
  | .dict kvs => od kvs k
  | _ => PyVal.none

/-- Whitespace skipped between JSON tokens. -/
def jsonSkipWs (l : List Char) : List Char :=
  l.dropWhile (fun c => c == ' ' || c == '\t' || c == '\n' || c == '\r')

/-- JSON string body reader: consumes up to the closing quote, decoding
the common escapes, returning the content and the remaining input. -/
def jsonStringAux : Nat → List Char → Except String (List Char × List Char)
  | 0, _ => .error "Unterminated string"
  | _ + 1, [] => .error "Unterminated string"
  | fuel + 1, c :: rest =>
    if c = '"' then .ok ([], rest)
    else if c = '\\' then
      match rest with
      | [] => .error "Unterminated string"
      | e :: rest2 =>
        let dec : Except String Char :=
          if e = '"' then .ok '"'
          else if e = '\\' then .ok '\\'
          else if e = '/' then .ok '/'
          else if e = 'n' then .ok '\n'
          else if e = 't' then .ok '\t'
          else if e = 'r' then .ok '\r'
          else if e = 'b' then .ok '\x08'
          else if e = 'f' then .ok '\x0c'
          else .error "Unsupported escape"
        match dec with
        | .error m => .error m
        | .ok ch =>
          match jsonStringAux fuel rest2 with
          | .ok (cs, rem) => .ok (ch :: cs, rem)
          | .error m => .error m
    else
      match jsonStringAux fuel rest with
      | .ok (cs, rem) => .ok (c :: cs, rem)
      | .error m => .error m

/-- Digits of a decimal literal and the remaining input. -/
def jsonDigits (l : List Char) : List Char × List Char :=
  (l.takeWhile Char.isDigit, l.dropWhile Char.isDigit)

/-- Natural value of a digit list. -/
def jsonDigitsVal (ds : List Char) : Nat :=
  ds.foldl (fun n c => 10 * n + (c.toNat - '0'.toNat)) 0

mutual

/-- JSON value reader (fuel-bounded recursive descent). -/
def jsonValAux : Nat → List Char → Except String (PyVal × List Char)
  | 0, _ => .error "Too deeply nested"
  | fuel + 1, l =>
    match jsonSkipWs l with
    | [] => .error "Expecting value"
    | c :: rest =>
      if c = 'n' then
        match rest with
        | 'u' :: 'l' :: 'l' :: r => .ok (.none, r)
        | _ => .error "Expecting value"
      else if c = 't' then
        match rest with
        | 'r' :: 'u' :: 'e' :: r => .ok (.bool true, r)
        | _ => .error "Expecting value"
      else if c = 'f' then
        match rest with
        | 'a' :: 'l' :: 's' :: 'e' :: r => .ok (.bool false, r)
        | _ => .error "Expecting value"
      else if c = '"' then
        match jsonStringAux (rest.length + 1) rest with
        | .ok (cs, r) => .ok (.str (String.mk cs), r)
        | .error m => .error m
      else if c = '{' then
        match jsonSkipWs rest with
        | '}' :: r => .ok (.dict [], r)
        | l2 =>
          match jsonObjAux fuel l2 with
          | .ok (entries, r) => .ok (.dict entries, r)
          | .error m => .error m
      else if c = '[' then
        match jsonSkipWs rest with
        | ']' :: r => .ok (.list [], r)
        | l2 =>
          match jsonArrAux fuel l2 with
          | .ok (vs, r) => .ok (.list vs, r)
          | .error m => .error m
      else if c = '-' then
        match jsonDigits rest with
        | ([], _) => .error "Expecting value"
        | (ds, rem) => .ok (.int (-(jsonDigitsVal ds : Int)), rem)
      else if c.isDigit then
        match jsonDigits (c :: rest) with
        | (ds, rem) => .ok (.int (jsonDigitsVal ds : Int), rem)
      else .error "Expecting value"

/-- JSON object members reader, positioned at a property name. -/
def jsonObjAux : Nat → List Char → Except String (List (String × PyVal) × List Char)
  | 0, _ => .error "Too deeply nested"
  | fuel + 1, l =>
    match jsonSkipWs l with
    | '"' :: rest =>
      match jsonStringAux (rest.length + 1) rest with
      | .error m => .error m
      | .ok (key, r1) =>
        match jsonSkipWs r1 with
        | ':' :: r2 =>
          match jsonValAux fuel r2 with
          | .error m => .error m
          | .ok (v, r3) =>
            match jsonSkipWs r3 with
            | ',' :: r4 =>
              match jsonObjAux fuel r4 with
              | .ok (entries, r5) => .ok ((String.mk key, v) :: entries, r5)
              | .error m => .error m
            | '}' :: r4 => .ok ([(String.mk key, v)], r4)
            | _ => .error "Expecting delimiter in object"
        | _ => .error "Expecting colon in object"
    | _ => .error "Expecting property name"

/-- JSON array items reader, positioned at an item. -/
def jsonArrAux : Nat → List Char → Except String (List PyVal × List Char)
  | 0, _ => .error "Too deeply nested"
  | fuel + 1, l =>
    match jsonValAux fuel l with
    | .error m => .error m
    | .ok (v, r1) =>
      match jsonSkipWs r1 with
      | ',' :: r2 =>
        match jsonArrAux fuel r2 with
        | .ok (vs, r3) => .ok (v :: vs, r3)
        | .error m => .error m
      | ']' :: r2 => .ok ([v], r2)
      | _ => .error "Expecting delimiter in array"

end

/-- Concrete executable model of `json.loads`, used to instantiate the
`jloads` boundary in witnesses: strict about trailing content
(`Extra data`), as the CPython parser is. -/
def jsonLoads (s : String) : Except String PyVal :=
  match jsonValAux (s.toList.length + 1) s.toList with
  | .error m => .error m
  | .ok (v, rest) => if (jsonSkipWs rest).isEmpty then .ok v else .error "Extra data"

/-- Outcome of the one outbound HTTP interaction in `call_recipe_agent`:
a raised `RequestException` (from `requests.post` or
`raise_for_status` on a non-2xx status), a 2xx response with a decodable
JSON body, or a 2xx response whose body fails to decode
(`ValueError` from `resp.json()`, with `resp.text` available). -/
inductive Transport where
  | netError (msg : String)
  | okJson (v : PyVal)
  | okBadJson (text : String)

/-- `views.py` lines 67-98, `call_recipe_agent`: the configured API key
and the transport outcome are explicit parameters; an empty key models
the falsy unset `AIRIA_API_KEY` of Python. -/
def call_recipe_agent (apiKey : String) (transport : Transport) : PyVal :=
  if apiKey = "" then
    .dict [("error", .str "AIRIA_API_KEY not set in environment.")]
  else
    match transport with
    | .netError m => .dict [("error", .str m)]
    | .okJson v => v
    | .okBadJson txt =>
      .dict [("error", .str "Failed to decode Airia JSON response"), ("raw_text", .str txt)]

/-- One persisted `GeneratedRecipe` row (`models.py` lines 16-23), with
the field values the view passes to `objects.create`. -/
structure AttemptRec where
  recipe_name : PyVal
  recipe_text : PyVal
  is_safe : PyVal
  safety_notes : PyVal

/-- The `GeneratedRecipe` row built from a parsed result
(`views.py` lines 252-258). -/
def mkAttempt (parsed : PyVal) : AttemptRec :=
  { recipe_name := getField parsed "recipe_name",
    recipe_text := getField parsed "recipe_text",
    is_safe := getField parsed "is_safe",
    safety_notes := getField parsed "safety_notes" }

/-- The rendered `result` record of the view (`views.py` lines 261-267),
with the ordered attempt history of the owning request. -/
structure ViewResult where
  recipe_name : PyVal
  recipe_text : PyVal
  is_safe : PyVal
  safety_notes : PyVal
  all_attempts : List AttemptRec

/-- `views.py` lines 229-267: the POST branch of `generate_safe_recipe`
on a valid form, for a fresh request. `agent` abstracts
`call_recipe_agent` on (cuisine, allergies, ingredients,
previous_error); the view calls it exactly once, with the
`previous_error` parameter left at its `""` default, and persists
exactly the one resulting attempt. -/
def generate_safe_recipe_post (jloads : String → Except String PyVal)
    (agent : String → String → String → String → PyVal)
    (cuisine allergies ingredients : String) : ViewResult :=
  let agent_result := agent cuisine allergies ingredients ""
  let parsed := parse_agent_output jloads agent_result
  let generated := mkAttempt parsed
  { recipe_name := generated.recipe_name,
    recipe_text := generated.recipe_text,
    is_safe := generated.is_safe,
    safety_notes := generated.safety_notes,
    all_attempts := [generated] }

/-- Python `s.split(",")` on a character list: `[""]` on empty input,
empty pieces preserved. -/
def splitComma : List Char → List (List Char)
  | [] => [[]]
  | c :: rest =>
    if c = ',' then [] :: splitComma rest
    else
      match splitComma rest with
      | [] => [[c]]
      | p :: ps => (c :: p) :: ps

/-- Allergy text parsed into lowercase, trimmed, non-empty tokens split
on commas (spec section 4.1). -/
def allergyTokens (a : String) : List (List Char) :=
  ((splitComma a.toList).map (fun p => (trimChars p).map Char.toLower)).filter
    (fun t => !t.isEmpty)

/-- Ingredient text parsed into trimmed, non-empty tokens split on
commas (spec section 4.2). -/
def ingredientTokens (i : String) : List String :=
  ((splitComma i.toList).map (fun p => String.mk (trimChars p))).filter (fun s => s != "")

/-- A recipe produced by the simulated chef agent. -/
structure ChefRecipe where
  recipe_name : String
  recipe_text : String
deriving DecidableEq

/-- A verdict produced by the simulated inspector agent. -/
structure InspectorVerdict where
  is_safe : Bool
  safety_notes : String
deriving DecidableEq

/-- The ingredient phrase of the simulated chef safe recipe: up to 3
supplied ingredients, "seasonal vegetables" when none (spec section
4.2). -/
def chefPhrase (ingredients : String) : String :=
  if ((ingredientTokens ingredients).take 3).isEmpty then "seasonal vegetables"
  else joinCommaSpace ((ingredientTokens ingredients).take 3)

/-- The safe-recipe title of the simulated chef, referencing the
cuisine when non-blank. -/
def chefTitle (cuisine : String) : String :=
  if cuisine = "" then "Safe Delight" else "Safe " ++ cuisine ++ " Delight"

/-- Cuisine phrasing inside the safe recipe text, generic when blank. -/
def chefStyle (cuisine : String) : String :=
  if cuisine = "" then "home-style" else cuisine

/-- The safe-recipe text of the simulated chef, referencing the
ingredient phrase and the cuisine phrasing. -/
def chefSafeText (cuisine ingredients : String) : String :=
  "A " ++ chefStyle cuisine ++ " dish prepared with " ++ chefPhrase ingredients
    ++ ". Saute the " ++ chefPhrase ingredients ++ " until tender, season to taste, and serve."

/-- Modelled from the spec: `_simulate_chef_agent` is imported by
`recipes/tests.py` from `recipes.views` but is absent from the
`views.py` in the sources; modelled from the spec section 4.2
deterministic local fallback mode — on `attempt=1` with a "nuts"
allergy token, the known-unsafe "Pesto Pasta" fixture whose text
includes "pine nuts"; otherwise a safe-named recipe referencing up to 3
supplied ingredients ("seasonal vegetables" when none) and the cuisine
(generic phrasing when blank). -/
def _simulate_chef_agent (cuisine allergies ingredients : String) (attempt : Nat) : ChefRecipe :=
  if attempt = 1 ∧ "nuts".toList ∈ allergyTokens allergies then
    { recipe_name := "Pesto Pasta",
      recipe_text := "Classic pesto pasta: blend fresh basil, garlic, parmesan, olive oil, and pine nuts, then toss with cooked pasta." }
  else
    { recipe_name := chefTitle cuisine,
      recipe_text := chefSafeText cuisine ingredients }

/-- Modelled from the spec: `_simulate_inspector_agent` is imported by
`recipes/tests.py` from `recipes.views` but is absent from the
`views.py` in the sources; modelled from the spec section 4.1 Allergy
Matcher — empty token set is always safe with a "no allergy
restrictions" note; a "nuts" token flags a "pesto" recipe name or a
"pine nuts" recipe text substring as UNSAFE; otherwise safe. -/
def _simulate_inspector_agent (recipe_name recipe_text allergies : String) : InspectorVerdict :=
  let tokens := allergyTokens allergies
  if tokens.isEmpty then
    { is_safe := true,
      safety_notes := "No allergy restrictions specified; recipe accepted as-is." }
  else if "nuts".toList ∈ tokens ∧ strContains (pyLowerStr recipe_name) "pesto" = true then
    { is_safe := false,
      safety_notes := "UNSAFE: Recipe name suggests pesto, which conventionally contains pine nuts." }
  else if "nuts".toList ∈ tokens ∧ strContains (pyLowerStr recipe_text) "pine nuts" = true then
    { is_safe := false,
      safety_notes := "UNSAFE: Recipe text mentions pine nuts, which conflict with a nuts allergy." }
  else
    { is_safe := true,
      safety_notes := "Recipe appears safe for the specified allergies." }

/-- A canonical normalized record (the shape of the spec section 4.3
contract), written in the key order of the normalizer. -/
def mkCanon (n t : String) (b : Bool) (s : String) : PyVal :=
  .dict [("recipe_name", .str n), ("recipe_text", .str t),
         ("is_safe", .bool b), ("safety_notes", .str s)]

theorem startsWithChars_append (n post : List Char) : startsWithChars n (n ++ post) = true := by
  induction n with
  | nil => rfl
  | cons a as ih => simp [startsWithChars, ih]

theorem containsSeq_here (n post : List Char) : containsSeq n (n ++ post) = true := by
  cases hnp : n ++ post with
  | nil =>
    rcases List.append_eq_nil.mp hnp with ⟨h1, h2⟩
    subst h1; subst h2; rfl
  | cons c rest =>
    show (startsWithChars n (c :: rest) || containsSeq n rest) = true
    rw [← hnp, startsWithChars_append]
    simp

theorem containsSeq_append_left (pre n t : List Char) (h : containsSeq n t = true) :
    containsSeq n (pre ++ t) = true := by
  induction pre with
  | nil => exact h
  | cons c cs ih => simp [containsSeq, ih]

theorem containsSeq_sandwich (pre n post : List Char) :
    containsSeq n (pre ++ (n ++ post)) = true :=
  containsSeq_append_left pre n (n ++ post) (containsSeq_here n post)

theorem strContains_parts (big small : String) (pre post : List Char)
    (h : big.toList = pre ++ (small.toList ++ post)) : strContains big small = true := by
  unfold strContains
  rw [h]
  exact containsSeq_sandwich pre small.toList post

theorem od_eq_none (out : List (String × PyVal)) (k : String)
    (h : dget out k = Option.none) : od out k = PyVal.none := by
  unfold od
  rw [h]
  rfl

theorem parse_tail_shape (output : PyVal) :
    ∃ n t b s, parse_tail output = PyVal.dict
      [("recipe_name", n), ("recipe_text", t), ("is_safe", PyVal.bool b), ("safety_notes", PyVal.str s)] := by
  cases output with
  | none => exact ⟨_, _, _, _, rfl⟩
  | bool b => exact ⟨_, _, _, _, rfl⟩
  | int n => exact ⟨_, _, _, _, rfl⟩
  | str s => exact ⟨_, _, _, _, rfl⟩
  | list xs => exact ⟨_, _, _, _, rfl⟩
  | dict kvs => exact ⟨_, _, _, _, rfl⟩

/-- C4: the normalizer `parse_agent_output` is total — for every input
value of any type it returns, without failing, a record with exactly
the four keys `recipe_name`, `recipe_text`, `is_safe` (a boolean) and
`safety_notes` (a string); when the structured payload lacks the
`recipe_name`/`title` (resp. `recipe_text`/`text`) keys, the string
default "Untitled Recipe" (resp. "No recipe text provided.") is
substituted. -/
theorem parse_agent_output_total_canonical_shape :
    (∀ (jloads : String → Except String PyVal) (v : PyVal),
      ∃ n t b s, parse_agent_output jloads v = PyVal.dict
        [("recipe_name", n), ("recipe_text", t), ("is_safe", PyVal.bool b),
         ("safety_notes", PyVal.str s)])
    ∧ (∀ (jloads : String → Except String PyVal) (out : List (String × PyVal)),
      dget out "recipe_name" = Option.none → dget out "title" = Option.none →
      getField (parse_agent_output jloads (PyVal.dict [("result", PyVal.dict out)])) "recipe_name"
        = PyVal.str "Untitled Recipe")
    ∧ (∀ (jloads : String → Except String PyVal) (out : List (String × PyVal)),
      dget out "recipe_text" = Option.none → dget out "text" = Option.none →
      getField (parse_agent_output jloads (PyVal.dict [("result", PyVal.dict out)])) "recipe_text"
        = PyVal.str "No recipe text provided.") := by
  refine ⟨?_, ?_, ?_⟩
  · intro jl v
    unfold parse_agent_output
    repeat' split
    all_goals try dsimp only []
    all_goals repeat' split
    all_goals first
      | exact ⟨_, _, _, _, rfl⟩
      | exact parse_tail_shape _
  · intro jl out h1 h2
    have e : getField (parse_agent_output jl (PyVal.dict [("result", PyVal.dict out)])) "recipe_name"
        = pyOr (od out "recipe_name") (pyOr (od out "title") (PyVal.str "Untitled Recipe")) := rfl
    rw [e, od_eq_none out "recipe_name" h1, od_eq_none out "title" h2]
    rfl
  · intro jl out h1 h2
    have e : getField (parse_agent_output jl (PyVal.dict [("result", PyVal.dict out)])) "recipe_text"
        = pyOr (od out "recipe_text") (pyOr (od out "text") (PyVal.str "No recipe text provided.")) := rfl
    rw [e, od_eq_none out "recipe_text" h1, od_eq_none out "text" h2]
    rfl

/-- Witness for C4: a non-dict input and a payload missing both
name/text keys, evaluated concretely. -/
theorem parse_agent_output_total_canonical_shape_witness :
    (∃ n t b s, parse_agent_output jsonLoads (PyVal.list []) = PyVal.dict
      [("recipe_name", n), ("recipe_text", t), ("is_safe", PyVal.bool b),
       ("safety_notes", PyVal.str s)])
    ∧ getField (parse_agent_output jsonLoads
        (PyVal.dict [("result", PyVal.dict [("is_safe", PyVal.bool true)])])) "recipe_name"
        = PyVal.str "Untitled Recipe"
    ∧ getField (parse_agent_output jsonLoads
        (PyVal.dict [("result", PyVal.dict [("is_safe", PyVal.bool true)])])) "recipe_text"
        = PyVal.str "No recipe text provided." :=
  ⟨parse_agent_output_total_canonical_shape.1 jsonLoads (PyVal.list []),
   parse_agent_output_total_canonical_shape.2.1 jsonLoads [("is_safe", PyVal.bool true)] rfl rfl,
   parse_agent_output_total_canonical_shape.2.2 jsonLoads [("is_safe", PyVal.bool true)] rfl rfl⟩

/-- C6: for a structured payload reaching field extraction (here fed
through the `result` wrapper), a native boolean `is_safe` is returned
as-is; a string maps to true exactly when its lowercase form is
"true", "yes" or "1" (and to false otherwise); an absent `is_safe` or
one of any other type yields false (fail closed). -/
theorem parse_agent_output_is_safe_mapping :
    ∀ (jloads : String → Except String PyVal) (out : List (String × PyVal)),
      (∀ b, dget out "is_safe" = some (PyVal.bool b) →
        getField (parse_agent_output jloads (PyVal.dict [("result", PyVal.dict out)])) "is_safe"
          = PyVal.bool b)
      ∧ (∀ s, dget out "is_safe" = some (PyVal.str s) →
        ((getField (parse_agent_output jloads (PyVal.dict [("result", PyVal.dict out)])) "is_safe"
            = PyVal.bool true)
          ↔ (pyLowerStr s = "true" ∨ pyLowerStr s = "yes" ∨ pyLowerStr s = "1")))
      ∧ (∀ s, dget out "is_safe" = some (PyVal.str s) →
        ¬(pyLowerStr s = "true" ∨ pyLowerStr s = "yes" ∨ pyLowerStr s = "1") →
        getField (parse_agent_output jloads (PyVal.dict [("result", PyVal.dict out)])) "is_safe"
          = PyVal.bool false)
      ∧ ((match dget out "is_safe" with
          | some (PyVal.bool _) => False
          | some (PyVal.str _) => False
          | _ => True) →
        getField (parse_agent_output jloads (PyVal.dict [("result", PyVal.dict out)])) "is_safe"
          = PyVal.bool false) := by
  intro jl out
  have e : getField (parse_agent_output jl (PyVal.dict [("result", PyVal.dict out)])) "is_safe"
      = PyVal.bool (extractIsSafe out) := rfl
  have estep : ∀ v, dget out "is_safe" = some v →
      extractIsSafe out = (match v with
        | PyVal.bool b => b
        | PyVal.str s => ["true", "yes", "1"].contains (pyLowerStr s)
        | _ => false) := by
    intro v hv
    unfold extractIsSafe od
    rw [hv]
    rfl
  refine ⟨?_, ?_, ?_, ?_⟩
  · intro b hb
    rw [e, estep _ hb]
  · intro s hs
    rw [e, estep _ hs]
    simp only [PyVal.bool.injEq]
    simp [List.contains_cons, Bool.or_eq_true, beq_iff_eq]
  · intro s hs hne
    rw [e, estep _ hs]
    simp only [PyVal.bool.injEq]
    simpa [List.contains_cons, Bool.or_eq_true, beq_iff_eq] using hne
  · intro hother
    rw [e]
    rcases hv : dget out "is_safe" with _ | v
    · unfold extractIsSafe od
      rw [hv]
      rfl
    · rw [hv] at hother
      rw [estep _ hv]
      cases v <;> simp_all

/-- Witness for C6: a native boolean, a truthy string, a falsy string
and a non-boolean non-string `is_safe`, evaluated concretely. -/
theorem parse_agent_output_is_safe_mapping_witness :
    getField (parse_agent_output jsonLoads
        (PyVal.dict [("result", PyVal.dict [("is_safe", PyVal.bool true)])])) "is_safe"
      = PyVal.bool true
    ∧ getField (parse_agent_output jsonLoads
        (PyVal.dict [("result", PyVal.dict [("is_safe", PyVal.str "Yes")])])) "is_safe"
      = PyVal.bool true
    ∧ getField (parse_agent_output jsonLoads
        (PyVal.dict [("result", PyVal.dict [("is_safe", PyVal.str "certainly")])])) "is_safe"
      = PyVal.bool false
    ∧ getField (parse_agent_output jsonLoads
        (PyVal.dict [("result", PyVal.dict [("is_safe", PyVal.int 1)])])) "is_safe"
      = PyVal.bool false :=
  ⟨(parse_agent_output_is_safe_mapping jsonLoads [("is_safe", PyVal.bool true)]).1 true rfl,
   ((parse_agent_output_is_safe_mapping jsonLoads [("is_safe", PyVal.str "Yes")]).2.1 "Yes" rfl).mpr
     (Or.inr (Or.inl (by decide))),
   (parse_agent_output_is_safe_mapping jsonLoads [("is_safe", PyVal.str "certainly")]).2.2.1
     "certainly" rfl (by decide),
   (parse_agent_output_is_safe_mapping jsonLoads [("is_safe", PyVal.int 1)]).2.2.2 trivial⟩

theorem parse_output_str (jl : String → Except String PyVal) (o : String) :
    parse_agent_output jl (PyVal.dict [("output", PyVal.str o)]) =
      (match charFind (pyStrip o).toList '{', charRFind (pyStrip o).toList '}' with
       | some first, some last =>
         if first < last then
           match jl (String.mk (((pyStrip o).toList.drop first).take (last + 1 - first))) with
           | .ok output => parse_tail output
           | .error e =>
             failRec ("Failed to parse JSON from agent string. Error: " ++ e
               ++ ". Content preview: " ++ pyTake (pyStrip o) 200)
         else
           failRec ("No JSON object found in agent output. Content preview: "
             ++ pyTake (pyStrip o) 200)
       | _, _ =>
         failRec ("No JSON object found in agent output. Content preview: "
           ++ pyTake (pyStrip o) 200)) := rfl

theorem parse_output_str_no_span (jl : String → Except String PyVal) (o : String)
    (h : charFind (pyStrip o).toList '{' = Option.none
       ∨ charRFind (pyStrip o).toList '}' = Option.none) :
    parse_agent_output jl (PyVal.dict [("output", PyVal.str o)]) =
      failRec ("No JSON object found in agent output. Content preview: "
        ++ pyTake (pyStrip o) 200) := by
  rcases h with h | h
  · rcases hb : charRFind (pyStrip o).toList '}' with _ | l <;> rw [parse_output_str, h, hb]
  · rcases ha : charFind (pyStrip o).toList '{' with _ | f <;> rw [parse_output_str, ha, h]

theorem parse_output_str_span (jl : String → Except String PyVal) (o : String) (f l : Nat)
    (hf : charFind (pyStrip o).toList '{' = some f)
    (hl : charRFind (pyStrip o).toList '}' = some l) :
    parse_agent_output jl (PyVal.dict [("output", PyVal.str o)]) =
      (if f < l then
        match jl (String.mk (((pyStrip o).toList.drop f).take (l + 1 - f))) with
        | .ok output => parse_tail output
        | .error e =>
          failRec ("Failed to parse JSON from agent string. Error: " ++ e
            ++ ". Content preview: " ++ pyTake (pyStrip o) 200)
      else
        failRec ("No JSON object found in agent output. Content preview: "
          ++ pyTake (pyStrip o) 200)) := by
  rw [parse_output_str, hf, hl]

/-- C7: for an `output`-wrapped string payload, when the stripped string
has no balanced brace span — no `(` index of `{` `)` preceding a later
`}` — or the extracted span fails to parse, the result is the
fail-closed record (`is_safe=False`) whose notes describe the parse
failure, and the echoed content preview is the stripped string cut to
at most 200 characters. -/
theorem parse_agent_output_string_payload_fail_closed :
    ∀ (jloads : String → Except String PyVal) (o : String),
      ((charFind (pyStrip o).toList '{' = Option.none
          ∨ charRFind (pyStrip o).toList '}' = Option.none) →
        parse_agent_output jloads (PyVal.dict [("output", PyVal.str o)])
          = failRec ("No JSON object found in agent output. Content preview: "
              ++ pyTake (pyStrip o) 200))
      ∧ (∀ f l, charFind (pyStrip o).toList '{' = some f →
          charRFind (pyStrip o).toList '}' = some l → ¬ f < l →
        parse_agent_output jloads (PyVal.dict [("output", PyVal.str o)])
          = failRec ("No JSON object found in agent output. Content preview: "
              ++ pyTake (pyStrip o) 200))
      ∧ (∀ f l e, charFind (pyStrip o).toList '{' = some f →
          charRFind (pyStrip o).toList '}' = some l → f < l →
          jloads (String.mk (((pyStrip o).toList.drop f).take (l + 1 - f))) = Except.error e →
        parse_agent_output jloads (PyVal.dict [("output", PyVal.str o)])
          = failRec ("Failed to parse JSON from agent string. Error: " ++ e
              ++ ". Content preview: " ++ pyTake (pyStrip o) 200))
      ∧ (pyTake (pyStrip o) 200).length ≤ 200 := by
  intro jl o
  refine ⟨fun h => parse_output_str_no_span jl o h, ?_, ?_, ?_⟩
  · intro f l hf hl hnlt
    rw [parse_output_str_span jl o f l hf hl, if_neg hnlt]
  · intro f l e hf hl hlt hjl
    rw [parse_output_str_span jl o f l hf hl, if_pos hlt, hjl]
  · show (List.take 200 (pyStrip o).toList).length ≤ 200
    simp [List.length_take]

/-- Witness for C7: a braceless string and a string whose brace span is
not valid JSON, evaluated concretely. -/
theorem parse_agent_output_string_payload_fail_closed_witness :
    parse_agent_output jsonLoads (PyVal.dict [("output", PyVal.str "no json here")])
      = failRec "No JSON object found in agent output. Content preview: no json here"
    ∧ parse_agent_output jsonLoads (PyVal.dict [("output", PyVal.str "a\x7bnope\x7db")])
      = failRec "Failed to parse JSON from agent string. Error: Expecting property name. Content preview: a\x7bnope\x7db"
    ∧ (pyTake (pyStrip "no json here") 200).length ≤ 200 :=
  ⟨(parse_agent_output_string_payload_fail_closed jsonLoads "no json here").1 (Or.inl rfl),
   (parse_agent_output_string_payload_fail_closed jsonLoads "a\x7bnope\x7db").2.2.1
     1 6 "Expecting property name" rfl rfl (by decide) rfl,
   (parse_agent_output_string_payload_fail_closed jsonLoads "no json here").2.2.2⟩

/-- C8: for a structured payload reaching field extraction (fed through
the `result` wrapper), when some expected key is absent — `title`
aliasing `recipe_name`, `text` aliasing `recipe_text` — the returned
`safety_notes` is the extracted notes with the diagnostic warning
suffix appended, the listed keys being exactly the absent ones; when
all four are present (via aliases) the notes carry no suffix. -/
theorem parse_agent_output_missing_keys_diag :
    ∀ (jloads : String → Except String PyVal) (out : List (String × PyVal)),
      (missingKeys out = [] →
        getField (parse_agent_output jloads (PyVal.dict [("result", PyVal.dict out)])) "safety_notes"
          = PyVal.str (extractNotes out))
      ∧ (missingKeys out ≠ [] →
        getField (parse_agent_output jloads (PyVal.dict [("result", PyVal.dict out)])) "safety_notes"
          = PyVal.str (extractNotes out ++ warnSuffix (missingKeys out)))
      ∧ (∀ k, k ∈ missingKeys out ↔
          ((k = "recipe_name" ∧ dget out "recipe_name" = Option.none ∧ dget out "title" = Option.none)
          ∨ (k = "recipe_text" ∧ dget out "recipe_text" = Option.none ∧ dget out "text" = Option.none)
          ∨ (k = "is_safe" ∧ dget out "is_safe" = Option.none)
          ∨ (k = "safety_notes" ∧ dget out "safety_notes" = Option.none))) := by
  intro jl out
  have e : getField (parse_agent_output jl (PyVal.dict [("result", PyVal.dict out)])) "safety_notes"
      = PyVal.str (if (missingKeys out).isEmpty then extractNotes out
          else extractNotes out ++ warnSuffix (missingKeys out)) := rfl
  refine ⟨?_, ?_, ?_⟩
  · intro h
    rw [e, h]
    rfl
  · intro h
    rw [e]
    cases hm : missingKeys out with
    | nil => exact absurd hm h
    | cons a rest => rfl
  · intro k
    unfold missingKeys
    split_ifs with h1 h2 h3 h4 <;>
      simp_all [List.mem_append, Option.isNone_iff_eq_none] <;> tauto

/-- Witness for C8: a payload with all four keys (no suffix) and a
payload with only the `title` alias (suffix naming the other three),
evaluated concretely. -/
theorem parse_agent_output_missing_keys_diag_witness :
    getField (parse_agent_output jsonLoads (PyVal.dict [("result", PyVal.dict
        [("recipe_name", PyVal.str "A"), ("recipe_text", PyVal.str "B"),
         ("is_safe", PyVal.bool true), ("safety_notes", PyVal.str "C")])])) "safety_notes"
      = PyVal.str "C"
    ∧ getField (parse_agent_output jsonLoads (PyVal.dict [("result", PyVal.dict
        [("title", PyVal.str "T")])])) "safety_notes"
      = PyVal.str "Recipe marked as unsafe but no safety notes provided. [WARNING: Response missing keys: recipe_text, is_safe, safety_notes]"
    ∧ "is_safe" ∈ missingKeys [("title", PyVal.str "T")] :=
  ⟨(parse_agent_output_missing_keys_diag jsonLoads
      [("recipe_name", PyVal.str "A"), ("recipe_text", PyVal.str "B"),
       ("is_safe", PyVal.bool true), ("safety_notes", PyVal.str "C")]).1 rfl,
   (parse_agent_output_missing_keys_diag jsonLoads [("title", PyVal.str "T")]).2.1
     (by decide),
   ((parse_agent_output_missing_keys_diag jsonLoads [("title", PyVal.str "T")]).2.2
     "is_safe").mpr (Or.inr (Or.inr (Or.inl ⟨rfl, rfl⟩)))⟩

theorem pyOr_str (x : String) (d : PyVal) (h : x ≠ "") : pyOr (PyVal.str x) d = PyVal.str x := by
  unfold pyOr pyTruthy
  rw [if_pos (bne_iff_ne.mpr h)]

/-- Counterexample for C9: a canonical record with an empty (falsy)
`recipe_name` is not a fixed point of the normalizer — the Python `or`
chain replaces the falsy field with the "Untitled Recipe" default, so
re-normalizing an already-canonical record is not always a no-op. -/
theorem parse_agent_output_not_identity_on_canonical :
    parse_agent_output jsonLoads (mkCanon "" "No recipe text provided." false "user note")
      ≠ mkCanon "" "No recipe text provided." false "user note" := by
  intro h
  have h2 : ("Untitled Recipe" : String) = "" :=
    congrArg (fun v => match getField v "recipe_name" with
      | PyVal.str s => s
      | _ => "x") h
  exact absurd h2 (by decide)

/-- C9 (amended): re-normalizing a canonical record is a no-op provided
its `recipe_name` and `recipe_text` are non-empty (truthy) strings; an
empty name or text is instead replaced by its default placeholder. -/
theorem parse_agent_output_canonical_fixpoint :
    ∀ (jloads : String → Except String PyVal) (n t : String) (b : Bool) (s : String),
      n ≠ "" → t ≠ "" →
      parse_agent_output jloads (mkCanon n t b s) = mkCanon n t b s := by
  intro jl n t b s hn ht
  have e2 : parse_agent_output jl (mkCanon n t b s) = PyVal.dict
      [("recipe_name", pyOr (PyVal.str n) (pyOr PyVal.none (PyVal.str "Untitled Recipe"))),
       ("recipe_text", pyOr (PyVal.str t) (pyOr PyVal.none (PyVal.str "No recipe text provided."))),
       ("is_safe", PyVal.bool b),
       ("safety_notes", PyVal.str s)] := rfl
  rw [e2, pyOr_str n _ hn, pyOr_str t _ ht]
  rfl

/-- Witness for C9 (amended): a concrete canonical record with nonempty
name and text is returned unchanged. -/
theorem parse_agent_output_canonical_fixpoint_witness :
    parse_agent_output jsonLoads
        (mkCanon "Tomato Pasta" "Boil pasta." true "Safe for stated allergies.")
      = mkCanon "Tomato Pasta" "Boil pasta." true "Safe for stated allergies." :=
  parse_agent_output_canonical_fixpoint jsonLoads "Tomato Pasta" "Boil pasta." true
    "Safe for stated allergies." (by decide) (by decide)

/-- C10: for a string `s` whose full text fails JSON parsing but whose
first-`{`-to-last-`}` span parses as an object — e.g. one embedded JSON
object surrounded by extra text — the `result` wrapper feeds the whole
string to the parser and fails closed with a note carrying no content
preview, while the `output` wrapper extracts the span and returns the
successfully extracted recipe record. -/
theorem parse_result_output_asymmetry :
    ∀ (jloads : String → Except String PyVal) (s e : String)
      (payload : List (String × PyVal)) (f l : Nat),
      jloads s = Except.error e →
      charFind (pyStrip s).toList '{' = some f →
      charRFind (pyStrip s).toList '}' = some l →
      f < l →
      jloads (String.mk (((pyStrip s).toList.drop f).take (l + 1 - f)))
        = Except.ok (PyVal.dict payload) →
      parse_agent_output jloads (PyVal.dict [("result", PyVal.str s)])
        = failRec ("Failed to parse JSON from result string: " ++ e)
      ∧ parse_agent_output jloads (PyVal.dict [("output", PyVal.str s)])
        = parse_tail (PyVal.dict payload) := by
  intro jl s e payload f l herr hf hl hlt hok
  constructor
  · have e1 : parse_agent_output jl (PyVal.dict [("result", PyVal.str s)])
        = (match jl s with
           | .error e0 => failRec ("Failed to parse JSON from result string: " ++ e0)
           | .ok output => parse_tail output) := rfl
    rw [e1, herr]
  · rw [parse_output_str_span jl s f l hf hl, if_pos hlt, hok]

/-- Witness for C10: the string x{"a": 1}y, with the concrete
`jsonLoads`, fails as a whole ("Expecting value") while its brace span
parses, and the two wrappers diverge as stated. -/
theorem parse_result_output_asymmetry_witness :
    parse_agent_output jsonLoads (PyVal.dict [("result", PyVal.str "x\x7b\"a\": 1\x7dy")])
      = failRec "Failed to parse JSON from result string: Expecting value"
    ∧ parse_agent_output jsonLoads (PyVal.dict [("output", PyVal.str "x\x7b\"a\": 1\x7dy")])
      = parse_tail (PyVal.dict [("a", PyVal.int 1)]) :=
  parse_result_output_asymmetry jsonLoads "x\x7b\"a\": 1\x7dy" "Expecting value"
    [("a", PyVal.int 1)] 1 8 rfl rfl rfl (by decide) rfl

/-- C5: `call_recipe_agent` returns errors as values — with no API key
configured it returns the structured `error` record and its result does
not depend on the transport (no network I/O is observed); with a key,
a raised transport error and an undecodable 2xx body each map to a
structured `error` record instead of propagating an exception. -/
theorem call_recipe_agent_structured_errors :
    (∀ t, call_recipe_agent "" t
      = PyVal.dict [("error", PyVal.str "AIRIA_API_KEY not set in environment.")])
    ∧ (∀ t t', call_recipe_agent "" t = call_recipe_agent "" t')
    ∧ (∀ key m, key ≠ "" → call_recipe_agent key (Transport.netError m)
      = PyVal.dict [("error", PyVal.str m)])
    ∧ (∀ key txt, key ≠ "" → call_recipe_agent key (Transport.okBadJson txt)
      = PyVal.dict [("error", PyVal.str "Failed to decode Airia JSON response"),
                    ("raw_text", PyVal.str txt)]) := by
  refine ⟨fun t => rfl, fun t t' => rfl, ?_, ?_⟩
  · intro key m h
    unfold call_recipe_agent
    rw [if_neg h]
  · intro key txt h
    unfold call_recipe_agent
    rw [if_neg h]

/-- Witness for C5: concrete missing-key, transport-failure and
bad-body calls. -/
theorem call_recipe_agent_structured_errors_witness :
    call_recipe_agent "" (Transport.okJson (PyVal.int 7))
      = PyVal.dict [("error", PyVal.str "AIRIA_API_KEY not set in environment.")]
    ∧ call_recipe_agent "" (Transport.okJson (PyVal.int 7))
      = call_recipe_agent "" (Transport.netError "boom")
    ∧ call_recipe_agent "sk-key" (Transport.netError "timeout")
      = PyVal.dict [("error", PyVal.str "timeout")]
    ∧ call_recipe_agent "sk-key" (Transport.okBadJson "<html>")
      = PyVal.dict [("error", PyVal.str "Failed to decode Airia JSON response"),
                    ("raw_text", PyVal.str "<html>")] :=
  ⟨call_recipe_agent_structured_errors.1 (Transport.okJson (PyVal.int 7)),
   call_recipe_agent_structured_errors.2.1 (Transport.okJson (PyVal.int 7)) (Transport.netError "boom"),
   call_recipe_agent_structured_errors.2.2.1 "sk-key" "timeout" (by decide),
   call_recipe_agent_structured_errors.2.2.2 "sk-key" "<html>" (by decide)⟩

/-- C1: contrary to the claim, the POST path of `generate_safe_recipe`
in `views.py` persists exactly one Attempt for every submission — it
calls the generator once, with no `previousError` (the `""` default),
and never retries, even when the parsed first result has
`is_safe=false`; no state of the agent or parser can produce a second
persisted Attempt. -/
theorem generate_safe_recipe_persists_exactly_one_attempt :
    ∀ (jloads : String → Except String PyVal)
      (agent : String → String → String → String → PyVal)
      (cuisine allergies ingredients : String),
      (generate_safe_recipe_post jloads agent cuisine allergies ingredients).all_attempts
        = [mkAttempt (parse_agent_output jloads (agent cuisine allergies ingredients ""))]
      ∧ (generate_safe_recipe_post jloads agent cuisine allergies ingredients).all_attempts.length
        = 1 := by
  intro jl agent c a i
  exact ⟨rfl, rfl⟩

theorem splitComma_ne_nil (l : List Char) : splitComma l ≠ [] := by
  induction l with
  | nil => simp [splitComma]
  | cons c rest ih =>
    by_cases hc : c = ','
    · simp [splitComma, hc]
    · cases hs : splitComma rest with
      | nil => exact absurd hs ih
      | cons p ps => simp [splitComma, hc, hs]

theorem splitComma_all_space : ∀ (l : List Char), (∀ c ∈ l, isPySpace c = true) →
    ∀ p ∈ splitComma l, ∀ c ∈ p, isPySpace c = true := by
  intro l
  induction l with
  | nil =>
    intro h p hp c hc
    simp [splitComma] at hp
    subst hp
    simp at hc
  | cons a rest ih =>
    intro h p hp c hc
    have ha : isPySpace a = true := h a (List.mem_cons_self a rest)
    have hrest : ∀ x ∈ rest, isPySpace x = true := fun x hx => h x (List.mem_cons_of_mem a hx)
    have hna : a ≠ ',' := fun hEq => absurd (hEq ▸ ha) (by decide)
    simp only [splitComma] at hp
    rw [if_neg hna] at hp
    cases hs : splitComma rest with
    | nil => exact absurd hs (splitComma_ne_nil rest)
    | cons p0 ps0 =>
      rw [hs] at hp
      rcases List.mem_cons.mp hp with hpe | hptail
      · subst hpe
        rcases List.mem_cons.mp hc with hce | hcp0
        · subst hce
          exact ha
        · exact ih hrest p0 (by rw [hs]; exact List.mem_cons_self p0 ps0) c hcp0
      · exact ih hrest p (by rw [hs]; exact List.mem_cons_of_mem p0 hptail) c hc

theorem trimChars_all_space (l : List Char) (h : ∀ c ∈ l, isPySpace c = true) :
    trimChars l = [] := by
  unfold trimChars
  rw [List.dropWhile_eq_nil_iff.mpr h]
  rfl

theorem allergyTokens_all_space (a : String) (h : ∀ c ∈ a.toList, isPySpace c = true) :
    allergyTokens a = [] := by
  unfold allergyTokens
  rw [List.filter_eq_nil_iff]
  intro t ht
  rcases List.mem_map.mp ht with ⟨p, hp, rfl⟩
  rw [trimChars_all_space p (splitComma_all_space a.toList h p hp)]
  decide

theorem chefPhrase_of_empty (i : String) (h : ingredientTokens i = []) :
    chefPhrase i = "seasonal vegetables" := by
  unfold chefPhrase
  rw [h]
  rfl

theorem chefPhrase_of_nonempty (i : String) (h : ingredientTokens i ≠ []) :
    chefPhrase i = joinCommaSpace ((ingredientTokens i).take 3) := by
  unfold chefPhrase
  cases hs : ingredientTokens i with
  | nil => exact absurd hs h
  | cons x xs => rfl

theorem chefTitle_contains_safe (c : String) : strContains (chefTitle c) "Safe" = true := by
  unfold chefTitle
  by_cases hc : c = ""
  · rw [if_pos hc]
    decide
  · rw [if_neg hc]
    apply strContains_parts _ _ [] (' ' :: (c.toList ++ " Delight".toList))
    simp [String.toList, String.data_append]

theorem chefSafeText_contains_phrase (c i : String) :
    strContains (chefSafeText c i) (chefPhrase i) = true := by
  apply strContains_parts _ _
    ("A ".toList ++ ((chefStyle c).toList ++ " dish prepared with ".toList))
    (". Saute the ".toList ++ ((chefPhrase i).toList
      ++ " until tender, season to taste, and serve.".toList))
  simp [chefSafeText, String.toList, String.data_append]

/-- C2 (spec-modelled): the deterministic local fallback generator — on
`attempt=1` with an allergy token "nuts" it returns "Pesto Pasta" whose
text contains "pine nuts"; on `attempt>=2` or without a nuts allergy it
returns a safe-named recipe whose text references the supplied
ingredients (the joined up-to-3 token phrase), or "seasonal vegetables"
when the ingredient list is blank. -/
theorem simulate_chef_agent_behavior :
    ∀ (cuisine allergies ingredients : String),
      ("nuts".toList ∈ allergyTokens allergies →
        (_simulate_chef_agent cuisine allergies ingredients 1).recipe_name = "Pesto Pasta"
        ∧ strContains (_simulate_chef_agent cuisine allergies ingredients 1).recipe_text
            "pine nuts" = true)
      ∧ (∀ attempt, 2 ≤ attempt ∨ "nuts".toList ∉ allergyTokens allergies →
        strContains (_simulate_chef_agent cuisine allergies ingredients attempt).recipe_name
          "Safe" = true
        ∧ (ingredientTokens ingredients = [] →
            strContains (_simulate_chef_agent cuisine allergies ingredients attempt).recipe_text
              "seasonal vegetables" = true)
        ∧ (ingredientTokens ingredients ≠ [] →
            strContains (_simulate_chef_agent cuisine allergies ingredients attempt).recipe_text
              (joinCommaSpace ((ingredientTokens ingredients).take 3)) = true)) := by
  intro c a i
  constructor
  · intro hnuts
    unfold _simulate_chef_agent
    rw [if_pos (And.intro rfl hnuts)]
    exact ⟨rfl, by decide⟩
  · intro att hatt
    have hcond : ¬(att = 1 ∧ "nuts".toList ∈ allergyTokens a) := by
      rcases hatt with h2 | hno
      · rintro ⟨h1, _⟩
        omega
      · rintro ⟨_, hm⟩
        exact hno hm
    unfold _simulate_chef_agent
    rw [if_neg hcond]
    refine ⟨chefTitle_contains_safe c, ?_, ?_⟩
    · intro hi
      have h1 := chefSafeText_contains_phrase c i
      rw [chefPhrase_of_empty i hi] at h1
      exact h1
    · intro hi
      have h1 := chefSafeText_contains_phrase c i
      rw [chefPhrase_of_nonempty i hi] at h1
      exact h1

/-- Witness for C2: the unsafe pesto fixture on attempt 1, the safe
retry on attempt 2, and the blank-ingredient default, evaluated
concretely. -/
theorem simulate_chef_agent_behavior_witness :
    (_simulate_chef_agent "Italian" "nuts" "chicken, tomatoes" 1).recipe_name = "Pesto Pasta"
    ∧ strContains (_simulate_chef_agent "Italian" "nuts" "chicken, tomatoes" 1).recipe_text
        "pine nuts" = true
    ∧ strContains (_simulate_chef_agent "Italian" "nuts" "chicken, tomatoes" 2).recipe_name
        "Safe" = true
    ∧ strContains (_simulate_chef_agent "Japanese" "soy" "" 1).recipe_text
        "seasonal vegetables" = true :=
  ⟨((simulate_chef_agent_behavior "Italian" "nuts" "chicken, tomatoes").1 (by decide)).1,
   ((simulate_chef_agent_behavior "Italian" "nuts" "chicken, tomatoes").1 (by decide)).2,
   ((simulate_chef_agent_behavior "Italian" "nuts" "chicken, tomatoes").2 2 (Or.inl (by decide))).1,
   ((simulate_chef_agent_behavior "Japanese" "soy" "").2 1 (Or.inr (by decide))).2.1 (by decide)⟩

/-- C3 (spec-modelled): for every allergy text that is empty or
whitespace-only — so comma-splitting, trimming and dropping empties
leaves no token — the Allergy Matcher returns safe with a note stating
that no allergy restrictions were specified, for every recipe name and
text. -/
theorem simulate_inspector_blank_allergies_safe :
    ∀ (recipe_name recipe_text allergies : String),
      (∀ c ∈ allergies.toList, isPySpace c = true) →
      (_simulate_inspector_agent recipe_name recipe_text allergies).is_safe = true
      ∧ strContains
          (pyLowerStr (_simulate_inspector_agent recipe_name recipe_text allergies).safety_notes)
          "no allergy restrictions" = true := by
  intro rn rt a h
  have ht := allergyTokens_all_space a h
  unfold _simulate_inspector_agent
  rw [ht]
  refine ⟨rfl, ?_⟩
  show strContains (pyLowerStr "No allergy restrictions specified; recipe accepted as-is.")
    "no allergy restrictions" = true
  decide

/-- Witness for C3: whitespace-only allergies approve even the pesto
fixture, evaluated concretely. -/
theorem simulate_inspector_blank_allergies_safe_witness :
    (_simulate_inspector_agent "Pesto Pasta" "Make pesto with basil and pine nuts" "   ").is_safe
      = true
    ∧ strContains
        (pyLowerStr (_simulate_inspector_agent "Pesto Pasta"
          "Make pesto with basil and pine nuts" "   ").safety_notes)
        "no allergy restrictions" = true :=
  simulate_inspector_blank_allergies_safe "Pesto Pasta" "Make pesto with basil and pine nuts"
    "   " (by decide)
